import Mathlib

/-!
Shallow embedding of the BITRE Airline Fare Audit Engine (src/audit_engine.py).

The pipeline stages `load_data` (CSV branch), `clean_data`, `compute_mom_changes`,
`detect_revenue_leakage` and `add_historical_notes` are translated here as pure
functions.  Pandas tables are lists of rows; a raw table carries its column
names.  External pandas parsers (`pd.to_datetime(errors="coerce")` and
`pd.to_numeric(errors="coerce")`) are abstracted as function parameters
`pm : String → Option Month` and `tn : String → Option ℚ`.  Missing values
(NaN) are `Option.none`; the derived MoM columns live in `PVal`, which also has
the signed infinities that IEEE division by zero produces.  Float arithmetic is
modelled exactly over ℚ; `Series.pct_change()` is modelled with
`fill_method=None` (the current pandas default).  A calendar month is embedded
as the number `yyyymm` (e.g. 201106), whose ℕ-order is chronological order.
-/

/-- `prefixCheck p l` is true iff the character list `p` is a prefix of `l`. -/
def prefixCheck : List Char → List Char → Bool
  | [], _ => true
  | _ :: _, [] => false
  | a :: p, b :: l => a == b && prefixCheck p l

/-- `infixCheck p l` is true iff the character list `p` occurs contiguously in `l`. -/
def infixCheck (p : List Char) (l : List Char) : Bool :=
  match l with
  | [] => prefixCheck p []
  | _ :: t => prefixCheck p l || infixCheck p t

/-- Python `kw in s.lower()` for an already-lowercase keyword `kw`
(the column names in the data are ASCII). -/
def lowerHas (s : String) (kw : String) : Bool :=
  infixCheck kw.data (s.data.map Char.toLower)

/-- Canonical business-class column name (audit_engine.py line 25). -/
def COL_BUSINESS : String := "Real Business Class"

/-- Canonical restricted-economy column name (line 26). -/
def COL_ECONOMY : String := "Real Restricted Economy"

/-- Canonical best-discount column name (line 27). -/
def COL_BEST_DISCOUNT : String := "Real Best Discount"

/-- Canonical month column name (line 28). -/
def COL_MONTH : String := "Month"

/-- A raw table: column names plus rows of string cells, as pandas sees them
after `load_data`. -/
structure RawTable where
  cols : List String
  rows : List (List String)
  deriving DecidableEq, Repr

/-- A month embedded as `yyyymm : ℕ` (e.g. 201106). -/
abbrev Month := ℕ

/-- Two-digit zero padding, as in strftime's %m. -/
def pad2 (n : ℕ) : String := if n < 10 then "0" ++ toString n else toString n

/-- `month.strftime("%Y-%m")` on the embedded `yyyymm` representation. -/
def fmtMonth (m : Month) : String := toString (m / 100) ++ "-" ++ pad2 (m % 100)

/-- One record of the cleaned table produced by `clean_data`. -/
structure CleanRow where
  month : Month
  business : Option ℚ
  economy : Option ℚ
  discount : Option ℚ
  deriving DecidableEq, Repr

/-- The cleaned table: whether the Best Discount column was resolved, plus rows. -/
structure CleanTable where
  hasDiscount : Bool
  rows : List CleanRow
  deriving DecidableEq, Repr

/-- Keyword test for the business column (line 101):
case-insensitive "business" in the name and "restricted" not in the name. -/
def business_kw (c : String) : Bool := lowerHas c "business" && !(lowerHas c "restricted")

/-- Keyword test for the economy column (line 106): "restricted" and "economy". -/
def economy_kw (c : String) : Bool := lowerHas c "restricted" && lowerHas c "economy"

/-- Keyword test for the discount column (line 111): "best" and "discount". -/
def discount_kw (c : String) : Bool := lowerHas c "best" && lowerHas c "discount"

/-- Resolution of the business column (lines 96, 99-103, 115-116):
exact canonical name, else first keyword match, else column index 1 (0-based)
when at least 2 columns exist. -/
def resolve_business (cols : List String) : Option String :=
  if COL_BUSINESS ∈ cols then some COL_BUSINESS else
  match cols.find? business_kw with
  | some c => some c
  | none => if 2 ≤ cols.length then cols.get? 1 else none

/-- Resolution of the economy column (lines 97, 104-108, 117-118):
exact name, else first keyword match, else column index 5 when at least 6 columns. -/
def resolve_economy (cols : List String) : Option String :=
  if COL_ECONOMY ∈ cols then some COL_ECONOMY else
  match cols.find? economy_kw with
  | some c => some c
  | none => if 6 ≤ cols.length then cols.get? 5 else none

/-- Resolution of the discount column (lines 98, 109-113, 119-120):
exact name, else first keyword match, else column index 7 when at least 8 columns. -/
def resolve_discount (cols : List String) : Option String :=
  if COL_BEST_DISCOUNT ∈ cols then some COL_BEST_DISCOUNT else
  match cols.find? discount_kw with
  | some c => some c
  | none => if 8 ≤ cols.length then cols.get? 7 else none

/-- Cell of a row at a column index (pandas cells of a parsed row). -/
def cellAt (r : List String) (i : ℕ) : String := (r.get? i).getD ""

/-- Month parsing plus row filtering of lines 90-93: parse the month cell of each
row with `pm` (the embedding of `pd.to_datetime(errors="coerce")`) and drop rows
whose month does not parse. -/
def parseMonthRows (pm : String → Option Month) (mIdx : ℕ)
    (rows : List (List String)) : List (Month × List String) :=
  rows.filterMap (fun r => (pm (cellAt r mIdx)).map (fun m => (m, r)))

/-- Numeric coercion of one retained row (lines 126-130): `tn` embeds
`pd.to_numeric(errors="coerce")`, so a non-numeric token becomes `none`. -/
def coerceRow (tn : String → Option ℚ) (bIdx eIdx : ℕ) (dIdx : Option ℕ)
    (m : Month) (r : List String) : CleanRow :=
  { month := m
    business := tn (cellAt r bIdx)
    economy := tn (cellAt r eIdx)
    discount :=
      match dIdx with
      | some j => tn (cellAt r j)
      | none => none }

/-- Row order used by `df.sort_values(COL_MONTH)`. -/
def rowLE (a b : CleanRow) : Prop := a.month ≤ b.month

instance : DecidableRel rowLE := fun a b => Nat.decLe a.month b.month

instance : IsTotal CleanRow rowLE := ⟨fun a b => Nat.le_total a.month b.month⟩

instance : IsTrans CleanRow rowLE := ⟨fun _ _ _ hab hbc => Nat.le_trans hab hbc⟩

/-- The `ValueError` message of lines 122-124. -/
def schemaErrorMsg (cols : List String) : String :=
  "Required columns not found. Available: " ++ toString cols

/-- The rename of line 133: `df.rename` with the dict that maps `business_col`
to COL_BUSINESS and `economy_col` to COL_ECONOMY.  When the two resolved
labels are equal the Python dict literal collapses to one entry whose value is
the economy name (the later entry wins), so every column with that label
becomes COL_ECONOMY and no COL_BUSINESS column is created. -/
def rename_be (bc ec : String) (cols : List String) : List String :=
  if bc = ec then cols.map (fun c => if c = ec then COL_ECONOMY else c)
  else cols.map (fun c => if c = bc then COL_BUSINESS else if c = ec then COL_ECONOMY else c)

/-- The rename of lines 134-135: `df.rename` mapping `discount_col` to
COL_BEST_DISCOUNT when the discount column resolved, else no change. -/
def rename_d (dopt : Option String) (cols : List String) : List String :=
  match dopt with
  | some d => cols.map (fun c => if c = d then COL_BEST_DISCOUNT else c)
  | none => cols

/-- The column names after both renames of lines 133-135 (the discount column
is resolved on the original names at lines 98-120, before any rename). -/
def final_cols (cols : List String) (bc ec : String) : List String :=
  rename_d (resolve_discount cols) (rename_be bc ec cols)

/-- `clean_data` (lines 85-143): parse months and drop unparseable rows, resolve
the three target columns (raising the schema `ValueError` when business or
economy cannot be resolved), coerce the resolved columns to numbers, rename
them to the canonical names (lines 133-135, with the Python dict collapse when
business and economy resolved to the same label), select the kept canonical
columns — raising `KeyError` (line 141) when a required canonical or month
column is missing after the renames — drop rows where business and economy are
both null, and sort ascending by month.  Cell values are selected by the first
occurrence of a label, matching pandas selection on unique labels (tables with
duplicate raw labels would make pandas fail earlier, at coercion). -/
def clean_data (pm : String → Option Month) (tn : String → Option ℚ)
    (t : RawTable) : Except String CleanTable :=
  match t.cols.indexOf? COL_MONTH with
  | none => .error "KeyError: Month"
  | some mIdx =>
    match resolve_business t.cols, resolve_economy t.cols with
    | some bc, some ec =>
      if COL_MONTH ∈ final_cols t.cols bc ec ∧ COL_BUSINESS ∈ final_cols t.cols bc ec ∧
          COL_ECONOMY ∈ final_cols t.cols bc ec then
        .ok ⟨((final_cols t.cols bc ec).indexOf? COL_BEST_DISCOUNT).isSome,
          List.insertionSort rowLE
            (((parseMonthRows pm mIdx t.rows).map
                (fun p => coerceRow tn
                  (((final_cols t.cols bc ec).indexOf? COL_BUSINESS).getD 0)
                  (((final_cols t.cols bc ec).indexOf? COL_ECONOMY).getD 0)
                  ((final_cols t.cols bc ec).indexOf? COL_BEST_DISCOUNT) p.1 p.2)).filter
              (fun r => r.business.isSome || r.economy.isSome))⟩
      else .error "KeyError: keep_cols"
    | _, _ => .error (schemaErrorMsg t.cols)

/-- Value of a derived MoM cell: a finite rational, a signed infinity, or NaN. -/
inductive PVal where
  | nan : PVal
  | pinf : PVal
  | ninf : PVal
  | num : ℚ → PVal
  deriving DecidableEq, Repr

/-- One cell of `Series.pct_change() * 100` with `fill_method=None`:
`(cur / prev - 1) * 100` in IEEE semantics over exact rationals.  NaN operands
propagate; division of a nonzero value by zero yields a signed infinity and
`0 / 0` yields NaN (lines 149-150). -/
def pctCell (prev cur : Option ℚ) : PVal :=
  match prev with
  | none => .nan
  | some p =>
    match cur with
    | none => .nan
    | some c =>
      if p = 0 then
        if c = 0 then .nan
        else if 0 < c then .pinf
        else .ninf
      else .num ((c / p - 1) * 100)

/-- The whole MoM column: element `i` pairs value `i` with value `i-1`
(`none` stands before the first element, as `Series.shift(1)` fills NaN). -/
def momList (xs : List (Option ℚ)) : List PVal :=
  List.zipWith pctCell (none :: xs) xs

/-- A cleaned row extended with the two MoM columns (lines 149-150). -/
structure MomRow extends CleanRow where
  business_MoM_pct : PVal
  economy_MoM_pct : PVal
  deriving DecidableEq, Repr

/-- `compute_mom_changes` (lines 146-151): copy the table and attach
`Business_MoM_pct` and `Economy_MoM_pct`. -/
def compute_mom_changes (rows : List CleanRow) : List MomRow :=
  List.zipWith (fun r pq => { toCleanRow := r, business_MoM_pct := pq.1, economy_MoM_pct := pq.2 })
    rows (List.zip (momList (rows.map (fun r => r.business))) (momList (rows.map (fun r => r.economy))))

/-- IEEE `<` against a finite rational: NaN compares false. -/
def pvalLtQ : PVal → ℚ → Bool
  | .nan, _ => false
  | .pinf, _ => false
  | .ninf, _ => true
  | .num x, q => decide (x < q)

/-- IEEE `>=` against a finite rational: NaN compares false. -/
def pvalGeQ : PVal → ℚ → Bool
  | .nan, _ => false
  | .pinf, _ => true
  | .ninf, _ => false
  | .num x, q => decide (q ≤ x)

/-- IEEE `<=` against a finite rational: NaN compares false. -/
def pvalLeQ : PVal → ℚ → Bool
  | .nan, _ => false
  | .pinf, _ => false
  | .ninf, _ => true
  | .num x, q => decide (x ≤ q)

/-- A MoM row extended with the leakage flag (line 163). -/
structure FlagRow extends MomRow where
  REVENUE_LEAKAGE : Bool
  deriving DecidableEq, Repr

/-- `detect_revenue_leakage` (lines 154-164): flag rows where the economy MoM
dropped below -10 while the business MoM lies between -3 and 3 inclusive. -/
def detect_revenue_leakage (rows : List MomRow) : List FlagRow :=
  rows.map (fun r =>
    { toMomRow := r
      REVENUE_LEAKAGE := pvalLtQ r.economy_MoM_pct (-10) &&
        (pvalGeQ r.business_MoM_pct (-3) && pvalLeQ r.business_MoM_pct 3) })

/-- The static historical-events table (lines 31-37). -/
def HISTORICAL_CONTEXT : List (String × String) :=
  [("2011-06", "Structural Change: Virgin & Jetstar introduced simplified, lower-cost Flexi fare structures; Qantas followed with competitive price cuts."),
   ("2012-01", "Market Shift: Virgin Australia expanded Business Class; Full Economy index rose as Premium Economy was removed."),
   ("2015-03", "Methodology Change: Qantas discontinued Full Economy fares; index tracking for this category ceased."),
   ("2017-11", "Product Redefinition: Jetstar changed refund rules to vouchers, removing its product from the BITRE Restricted Economy definition."),
   ("2020-04", "COVID-19 Impact: Massive reduction in services; indices based on limited available routes.")]

/-- A flagged row extended with the official note (line 44). -/
structure NoteRow extends FlagRow where
  official_note : Option String
  deriving DecidableEq, Repr

/-- `add_historical_notes` (lines 40-46): attach the `HISTORICAL_CONTEXT` entry
whose key equals the month formatted as "YYYY-MM" (the temporary `month_key`
column is added and dropped again, so its net effect is only `official_note`). -/
def add_historical_notes (rows : List FlagRow) : List NoteRow :=
  rows.map (fun r =>
    { toFlagRow := r
      official_note := List.lookup (fmtMonth r.month) HISTORICAL_CONTEXT })

/-- Test of a column name for a date/survey-period keyword (lines 63, 77):
case-insensitive "month" or "survey". -/
def date_kw (c : String) : Bool := lowerHas c "month" || lowerHas c "survey"

/-- The CSV month-column choice (lines 62-65): the first column whose name
matches `date_kw`, else the first column by position. -/
def csv_month_col (cols : List String) : String :=
  (cols.find? date_kw).getD (cols.headD "")

/-- `df.rename(columns={old: new})`: every column named `old` becomes `new`. -/
def renameCols (cols : List String) (old new : String) : List String :=
  cols.map (fun c => if c == old then new else c)

/-- The CSV month rename (lines 62-68), including the (dead) second rename that
runs when COL_MONTH is still absent. -/
def csv_rename_month (cols : List String) : List String :=
  let r1 := renameCols cols (csv_month_col cols) COL_MONTH
  if COL_MONTH ∈ r1 then r1 else renameCols r1 (r1.headD "") COL_MONTH

/-- The XLSX month rename (lines 76-80): test the FIRST column for `date_kw`,
but rename the first column to COL_MONTH in either branch. -/
def xlsx_rename_month (cols : List String) : List String :=
  let first_col := cols.headD ""
  if date_kw first_col then renameCols cols first_col COL_MONTH
  else renameCols cols (cols.headD "") COL_MONTH

/-- The month-column rename as the spec claims it for BOTH input forms: rename
the first column whose name matches `date_kw`, falling back to the first column
by position only when no name matches. -/
def claimed_month_rename (cols : List String) : List String :=
  match cols.find? date_kw with
  | some c => renameCols cols c COL_MONTH
  | none => renameCols cols (cols.headD "") COL_MONTH

/-- `df.columns.str.strip()` via a character-level trim of ASCII whitespace. -/
def isWS (c : Char) : Bool := c == ' ' || c == '\t' || c == '\n' || c == '\r'

/-- Trim of both ends of a character list. -/
def trimChars (l : List Char) : List Char :=
  ((l.dropWhile isWS).reverse.dropWhile isWS).reverse

/-- Trim of a column name. -/
def trimStr (s : String) : String := ⟨trimChars s.data⟩

/-- Column-whitespace strip of line 58. -/
def strip_cols (t : RawTable) : RawTable := ⟨t.cols.map trimStr, t.rows⟩

/-- Count of synthetic "Unnamed..." column names (line 59). -/
def unnamedCount (cols : List String) : ℕ :=
  (cols.filter (fun c => prefixCheck "Unnamed".data c.data)).length

/-- Outcome of the Python CSV-loading loop: a table, a surfaced exception, or
the `UnboundLocalError` that Python raises when `return df` runs with `df`
never assigned. -/
inductive PyLoad where
  | ok : RawTable → PyLoad
  | raised : String → PyLoad
  | unboundLocal : PyLoad
  deriving DecidableEq, Repr

/-- The CSV header-offset loop of lines 55-71.  `reads hr` embeds
`pd.read_csv(path, header=hr)` (error = raised parse exception).  The `last`
accumulator is the Python local `df`, which survives a `continue`.  On a parse
error the offset is skipped; on success the columns are stripped and the offset
is rejected (for offsets before the last) when all but at most one column name
is synthetic; otherwise the month column is renamed and the loop breaks.  When
the offsets are exhausted, Python's `return df` either returns the last
assigned `df` (stripped, with no month rename) or raises UnboundLocalError. -/
def load_csv_loop (reads : ℕ → Except String RawTable) :
    List ℕ → Option RawTable → PyLoad
  | [], last =>
    match last with
    | some df => .ok df
    | none => .unboundLocal
  | hr :: hrs, last =>
    match reads hr with
    | .error _ => load_csv_loop reads hrs last
    | .ok df0 =>
      let df := strip_cols df0
      if decide (df.cols.length ≤ unnamedCount df.cols + 1) && decide (hr < 4) then
        load_csv_loop reads hrs (some df)
      else .ok ⟨csv_rename_month df.cols, df.rows⟩

/-- The CSV branch of `load_data` (lines 53-71): try header offsets 0..4. -/
def load_csv (reads : ℕ → Except String RawTable) : PyLoad :=
  load_csv_loop reads (List.range 5) none

/-- Digit value of a character, for the concrete witness parsers. -/
def digitVal (c : Char) : Option ℕ :=
  if c.isDigit then some (c.toNat - 48) else none

/-- Accumulating decimal parse of a character list; fails on a non-digit. -/
def parseNatCore : List Char → ℕ → Option ℕ
  | [], acc => some acc
  | c :: cs, acc =>
    match digitVal c with
    | some d => parseNatCore cs (acc * 10 + d)
    | none => none

/-- Concrete all-digit token parser used to instantiate the abstract pandas
parsers in witnesses and counterexamples. -/
def parseNatTok (s : String) : Option ℕ :=
  match s.data with
  | [] => none
  | _ :: _ => parseNatCore s.data 0

/-- Concrete month parser instantiating `pd.to_datetime(errors="coerce")` on
tokens already written as `yyyymm`. -/
def tokPm : String → Option Month := parseNatTok

/-- Concrete numeric parser instantiating `pd.to_numeric(errors="coerce")` on
natural-number tokens. -/
def tokTn : String → Option ℚ := fun s => (parseNatTok s).map (fun n => (n : ℚ))

/-- The claim's reading of "strictly less than q" for a MoM value: a finite
value below q, or negative infinity; NaN (null) is never less. -/
def pvalIsLt (v : PVal) (q : ℚ) : Prop := v = PVal.ninf ∨ ∃ x, v = PVal.num x ∧ x < q

/-- The claim's reading of "at least q": a finite value at least q, or positive
infinity; NaN (null) is never at least q. -/
def pvalIsGe (v : PVal) (q : ℚ) : Prop := v = PVal.pinf ∨ ∃ x, v = PVal.num x ∧ q ≤ x

/-- The claim's reading of "at most q": a finite value at most q, or negative
infinity; NaN (null) is never at most q. -/
def pvalIsLe (v : PVal) (q : ℚ) : Prop := v = PVal.ninf ∨ ∃ x, v = PVal.num x ∧ x ≤ q

lemma pvalLtQ_eq_true_iff (v : PVal) (q : ℚ) : pvalLtQ v q = true ↔ pvalIsLt v q := by
  cases v <;> simp [pvalLtQ, pvalIsLt]

lemma pvalGeQ_eq_true_iff (v : PVal) (q : ℚ) : pvalGeQ v q = true ↔ pvalIsGe v q := by
  cases v <;> simp [pvalGeQ, pvalIsGe]

lemma pvalLeQ_eq_true_iff (v : PVal) (q : ℚ) : pvalLeQ v q = true ↔ pvalIsLe v q := by
  cases v <;> simp [pvalLeQ, pvalIsLe]

lemma detect_revenue_leakage_get (rows : List MomRow) (i : ℕ)
    (h' : i < (detect_revenue_leakage rows).length) (h : i < rows.length) :
    (detect_revenue_leakage rows).get ⟨i, h'⟩ =
      { toMomRow := rows.get ⟨i, h⟩
        REVENUE_LEAKAGE := pvalLtQ (rows.get ⟨i, h⟩).economy_MoM_pct (-10) &&
          (pvalGeQ (rows.get ⟨i, h⟩).business_MoM_pct (-3) &&
            pvalLeQ (rows.get ⟨i, h⟩).business_MoM_pct 3) } := by
  simp only [List.get_eq_getElem, detect_revenue_leakage]
  exact List.getElem_map _

/-- C1: in the processed table, the REVENUE_LEAKAGE flag of record i is true
iff its economy MoM is strictly below -10 and its business MoM lies in the
closed interval [-3, 3]; in particular the flag is false whenever either MoM
value is NaN, false when the economy MoM equals exactly -10, and true at
business MoM exactly -3 or exactly 3 given the economy drop. -/
theorem C1_revenue_leakage_iff (rows : List MomRow) (i : ℕ) (h : i < rows.length)
    (h' : i < (detect_revenue_leakage rows).length) :
    (((detect_revenue_leakage rows).get ⟨i, h'⟩).REVENUE_LEAKAGE = true ↔
      (pvalIsLt (rows.get ⟨i, h⟩).economy_MoM_pct (-10) ∧
        pvalIsGe (rows.get ⟨i, h⟩).business_MoM_pct (-3) ∧
        pvalIsLe (rows.get ⟨i, h⟩).business_MoM_pct 3)) ∧
    ((rows.get ⟨i, h⟩).economy_MoM_pct = PVal.nan →
      ((detect_revenue_leakage rows).get ⟨i, h'⟩).REVENUE_LEAKAGE = false) ∧
    ((rows.get ⟨i, h⟩).business_MoM_pct = PVal.nan →
      ((detect_revenue_leakage rows).get ⟨i, h'⟩).REVENUE_LEAKAGE = false) ∧
    ((rows.get ⟨i, h⟩).economy_MoM_pct = PVal.num (-10) →
      ((detect_revenue_leakage rows).get ⟨i, h'⟩).REVENUE_LEAKAGE = false) ∧
    (pvalIsLt (rows.get ⟨i, h⟩).economy_MoM_pct (-10) →
      ((rows.get ⟨i, h⟩).business_MoM_pct = PVal.num (-3) ∨
        (rows.get ⟨i, h⟩).business_MoM_pct = PVal.num 3) →
      ((detect_revenue_leakage rows).get ⟨i, h'⟩).REVENUE_LEAKAGE = true) := by
  rw [detect_revenue_leakage_get rows i h' h]
  set r := rows.get ⟨i, h⟩ with hr
  refine ⟨?_, ?_, ?_, ?_, ?_⟩
  · simp only [Bool.and_eq_true, pvalLtQ_eq_true_iff, pvalGeQ_eq_true_iff, pvalLeQ_eq_true_iff]
  · intro he
    simp [he, pvalLtQ]
  · intro hb
    simp [hb, pvalGeQ]
  · intro he
    simp [he, pvalLtQ]
  · intro he hb
    have hlt : pvalLtQ r.economy_MoM_pct (-10) = true := (pvalLtQ_eq_true_iff _ _).mpr he
    rcases hb with hb | hb <;>
      simp [hlt, hb, pvalGeQ, pvalLeQ]

theorem C1_revenue_leakage_iff_witness :
    ((detect_revenue_leakage
        [⟨⟨202004, some 1, some 1, none⟩, PVal.num 1, PVal.num (-15)⟩]).get
      ⟨0, by decide⟩).REVENUE_LEAKAGE = true :=
  (C1_revenue_leakage_iff [⟨⟨202004, some 1, some 1, none⟩, PVal.num 1, PVal.num (-15)⟩] 0
      (by decide) (by decide)).1.mpr
    ⟨Or.inr ⟨-15, rfl, by norm_num⟩, Or.inr ⟨1, rfl, by norm_num⟩, Or.inr ⟨1, rfl, by norm_num⟩⟩

lemma length_momList (xs : List (Option ℚ)) : (momList xs).length = xs.length := by
  simp [momList]

lemma length_compute_mom_changes (rows : List CleanRow) :
    (compute_mom_changes rows).length = rows.length := by
  simp [compute_mom_changes, length_momList]

lemma momList_get_succ (xs : List (Option ℚ)) (i : ℕ) (h2 : i + 1 < xs.length)
    (hm : i + 1 < (momList xs).length) (h1 : i < xs.length) :
    (momList xs).get ⟨i + 1, hm⟩ = pctCell (xs.get ⟨i, h1⟩) (xs.get ⟨i + 1, h2⟩) := by
  simp only [List.get_eq_getElem, momList]
  have hc : i + 1 < (none :: xs).length := by simp; omega
  have e1 : (List.zipWith pctCell (none :: xs) xs)[i + 1] =
      pctCell (none :: xs)[i + 1] xs[i + 1] := List.getElem_zipWith
  rw [e1, List.getElem_cons_succ]

lemma momList_get_zero (xs : List (Option ℚ)) (hm : 0 < (momList xs).length)
    (h0 : 0 < xs.length) :
    (momList xs).get ⟨0, hm⟩ = PVal.nan := by
  cases xs with
  | nil => simp at h0
  | cons a l => rfl

lemma compute_mom_changes_get (rows : List CleanRow) (i : ℕ)
    (hm : i < (compute_mom_changes rows).length) (hr : i < rows.length)
    (hbm : i < (momList (rows.map (fun r => r.business))).length)
    (hem : i < (momList (rows.map (fun r => r.economy))).length) :
    (compute_mom_changes rows).get ⟨i, hm⟩ =
      { toCleanRow := rows.get ⟨i, hr⟩
        business_MoM_pct := (momList (rows.map (fun r => r.business))).get ⟨i, hbm⟩
        economy_MoM_pct := (momList (rows.map (fun r => r.economy))).get ⟨i, hem⟩ } := by
  simp only [List.get_eq_getElem, compute_mom_changes]
  have hz : i < ((momList (rows.map (fun r => r.business))).zip
      (momList (rows.map (fun r => r.economy)))).length := by
    simp [List.length_zip]; omega
  have e1 : (List.zipWith
        (fun r pq =>
          { toCleanRow := r, business_MoM_pct := pq.1, economy_MoM_pct := pq.2 : MomRow })
        rows ((momList (rows.map (fun r => r.business))).zip
          (momList (rows.map (fun r => r.economy)))))[i] =
      (fun r pq =>
          { toCleanRow := r, business_MoM_pct := pq.1, economy_MoM_pct := pq.2 : MomRow })
        rows[i] ((momList (rows.map (fun r => r.business))).zip
          (momList (rows.map (fun r => r.economy))))[i] := List.getElem_zipWith
  rw [e1, List.getElem_zip]

/-- C2 counterexample: the claim says the MoM value is null whenever the prior
value is zero, but on a cleaned table whose business column is [0, 5] the code
computes (5 / 0 - 1) * 100 = +infinity at index 1, which is not null. -/
theorem C2_mom_zero_prior_counterexample :
    ((compute_mom_changes
        [⟨201001, some 0, some 100, none⟩, ⟨201002, some 5, some 100, none⟩]).get
      ⟨1, by decide⟩).business_MoM_pct = PVal.pinf ∧ PVal.pinf ≠ PVal.nan :=
  ⟨by decide, by decide⟩

/-- C2 (amended): for every cleaned table, businessMoMPct[i] equals
(business[i] / business[i-1] - 1) * 100 when i > 0, both values are non-null
and the prior is non-zero; it is null for the first record and whenever either
of the two values is null; but when the prior value is zero it is null only in
the 0/0 case, and is a signed infinity (not null) when the current value is
non-zero.  The same holds for economyMoMPct over the economy column. -/
theorem C2_mom_change_formula (rows : List CleanRow) (i : ℕ)
    (h2 : i + 1 < rows.length) (h1 : i < rows.length)
    (hm : i + 1 < (compute_mom_changes rows).length)
    (h0 : 0 < rows.length) (hm0 : 0 < (compute_mom_changes rows).length) :
    (((compute_mom_changes rows).get ⟨0, hm0⟩).business_MoM_pct = PVal.nan ∧
      ((compute_mom_changes rows).get ⟨0, hm0⟩).economy_MoM_pct = PVal.nan) ∧
    (∀ p c, (rows.get ⟨i, h1⟩).business = some p → (rows.get ⟨i + 1, h2⟩).business = some c →
      p ≠ 0 → ((compute_mom_changes rows).get ⟨i + 1, hm⟩).business_MoM_pct
        = PVal.num ((c / p - 1) * 100)) ∧
    ((rows.get ⟨i, h1⟩).business = none →
      ((compute_mom_changes rows).get ⟨i + 1, hm⟩).business_MoM_pct = PVal.nan) ∧
    ((rows.get ⟨i + 1, h2⟩).business = none →
      ((compute_mom_changes rows).get ⟨i + 1, hm⟩).business_MoM_pct = PVal.nan) ∧
    (∀ c, (rows.get ⟨i, h1⟩).business = some 0 → (rows.get ⟨i + 1, h2⟩).business = some c →
      ((compute_mom_changes rows).get ⟨i + 1, hm⟩).business_MoM_pct
        = if c = 0 then PVal.nan else if 0 < c then PVal.pinf else PVal.ninf) ∧
    (∀ p c, (rows.get ⟨i, h1⟩).economy = some p → (rows.get ⟨i + 1, h2⟩).economy = some c →
      p ≠ 0 → ((compute_mom_changes rows).get ⟨i + 1, hm⟩).economy_MoM_pct
        = PVal.num ((c / p - 1) * 100)) ∧
    ((rows.get ⟨i, h1⟩).economy = none →
      ((compute_mom_changes rows).get ⟨i + 1, hm⟩).economy_MoM_pct = PVal.nan) ∧
    ((rows.get ⟨i + 1, h2⟩).economy = none →
      ((compute_mom_changes rows).get ⟨i + 1, hm⟩).economy_MoM_pct = PVal.nan) ∧
    (∀ c, (rows.get ⟨i, h1⟩).economy = some 0 → (rows.get ⟨i + 1, h2⟩).economy = some c →
      ((compute_mom_changes rows).get ⟨i + 1, hm⟩).economy_MoM_pct
        = if c = 0 then PVal.nan else if 0 < c then PVal.pinf else PVal.ninf) := by
  have hbl : i + 1 < (momList (rows.map (fun r => r.business))).length := by
    rw [length_momList, List.length_map]; exact h2
  have hbl1 : i < rows.length := h1
  have hel : i + 1 < (momList (rows.map (fun r => r.economy))).length := by
    rw [length_momList, List.length_map]; exact h2
  have hbl0 : 0 < (momList (rows.map (fun r => r.business))).length := by
    rw [length_momList, List.length_map]; exact h0
  have hel0 : 0 < (momList (rows.map (fun r => r.economy))).length := by
    rw [length_momList, List.length_map]; exact h0
  have hbEq : ((compute_mom_changes rows).get ⟨i + 1, hm⟩).business_MoM_pct
      = pctCell (rows.get ⟨i, h1⟩).business (rows.get ⟨i + 1, h2⟩).business := by
    rw [compute_mom_changes_get rows (i + 1) hm h2 hbl hel]
    rw [momList_get_succ _ i (by rw [List.length_map]; exact h2) hbl
      (by rw [List.length_map]; exact h1)]
    simp [List.get_eq_getElem, List.getElem_map]
  have heEq : ((compute_mom_changes rows).get ⟨i + 1, hm⟩).economy_MoM_pct
      = pctCell (rows.get ⟨i, h1⟩).economy (rows.get ⟨i + 1, h2⟩).economy := by
    rw [compute_mom_changes_get rows (i + 1) hm h2 hbl hel]
    rw [momList_get_succ _ i (by rw [List.length_map]; exact h2) hel
      (by rw [List.length_map]; exact h1)]
    simp [List.get_eq_getElem, List.getElem_map]
  refine ⟨⟨?_, ?_⟩, ?_, ?_, ?_, ?_, ?_, ?_, ?_, ?_⟩
  · rw [compute_mom_changes_get rows 0 hm0 h0 hbl0 hel0]
    exact momList_get_zero _ hbl0 (by rw [List.length_map]; exact h0)
  · rw [compute_mom_changes_get rows 0 hm0 h0 hbl0 hel0]
    exact momList_get_zero _ hel0 (by rw [List.length_map]; exact h0)
  · intro p c hp hc hpne
    rw [hbEq, hp, hc]
    simp [pctCell, hpne]
  · intro hp
    rw [hbEq, hp]
    rfl
  · intro hc
    rw [hbEq, hc]
    cases (rows.get ⟨i, h1⟩).business <;> rfl
  · intro c hp hc
    rw [hbEq, hp, hc]
    simp [pctCell]
  · intro p c hp hc hpne
    rw [heEq, hp, hc]
    simp [pctCell, hpne]
  · intro hp
    rw [heEq, hp]
    rfl
  · intro hc
    rw [heEq, hc]
    cases (rows.get ⟨i, h1⟩).economy <;> rfl
  · intro c hp hc
    rw [heEq, hp, hc]
    simp [pctCell]

theorem C2_mom_change_formula_witness :
    ((compute_mom_changes
        [⟨202001, some 100, some 100, none⟩, ⟨202002, some 105, some 90, none⟩]).get
      ⟨1, by decide⟩).business_MoM_pct = PVal.num 5 := by
  have h := C2_mom_change_formula
      [⟨202001, some 100, some 100, none⟩, ⟨202002, some 105, some 90, none⟩] 0
      (by decide) (by decide) (by decide) (by decide) (by decide)
  have h2 := h.2.1 100 105 rfl rfl (by norm_num)
  have h3 : PVal.num (((105 : ℚ) / 100 - 1) * 100) = PVal.num 5 := by norm_num
  exact h2.trans h3

lemma clean_data_eq_of_resolved (pm : String → Option Month) (tn : String → Option ℚ)
    (t : RawTable) (mIdx : ℕ) (bc ec : String)
    (hmi : t.cols.indexOf? COL_MONTH = some mIdx)
    (hb : resolve_business t.cols = some bc) (he : resolve_economy t.cols = some ec) :
    clean_data pm tn t =
      if COL_MONTH ∈ final_cols t.cols bc ec ∧ COL_BUSINESS ∈ final_cols t.cols bc ec ∧
          COL_ECONOMY ∈ final_cols t.cols bc ec then
        .ok ⟨((final_cols t.cols bc ec).indexOf? COL_BEST_DISCOUNT).isSome,
          List.insertionSort rowLE
            (((parseMonthRows pm mIdx t.rows).map
                (fun p => coerceRow tn
                  (((final_cols t.cols bc ec).indexOf? COL_BUSINESS).getD 0)
                  (((final_cols t.cols bc ec).indexOf? COL_ECONOMY).getD 0)
                  ((final_cols t.cols bc ec).indexOf? COL_BEST_DISCOUNT) p.1 p.2)).filter
              (fun r => r.business.isSome || r.economy.isSome))⟩
      else .error "KeyError: keep_cols" := by
  unfold clean_data
  rw [hmi, hb, he]

lemma clean_data_ok_elim (pm : String → Option Month) (tn : String → Option ℚ)
    (t : RawTable) (ct : CleanTable) (h : clean_data pm tn t = .ok ct) :
    ∃ mIdx bc ec, t.cols.indexOf? COL_MONTH = some mIdx ∧
      resolve_business t.cols = some bc ∧ resolve_economy t.cols = some ec ∧
      (COL_MONTH ∈ final_cols t.cols bc ec ∧ COL_BUSINESS ∈ final_cols t.cols bc ec ∧
        COL_ECONOMY ∈ final_cols t.cols bc ec) ∧
      ct = ⟨((final_cols t.cols bc ec).indexOf? COL_BEST_DISCOUNT).isSome,
        List.insertionSort rowLE
          (((parseMonthRows pm mIdx t.rows).map
              (fun p => coerceRow tn
                (((final_cols t.cols bc ec).indexOf? COL_BUSINESS).getD 0)
                (((final_cols t.cols bc ec).indexOf? COL_ECONOMY).getD 0)
                ((final_cols t.cols bc ec).indexOf? COL_BEST_DISCOUNT) p.1 p.2)).filter
            (fun r => r.business.isSome || r.economy.isSome))⟩ := by
  cases hmi : t.cols.indexOf? COL_MONTH with
  | none =>
    unfold clean_data at h
    rw [hmi] at h
    exact absurd h (by simp)
  | some mIdx =>
    cases hb : resolve_business t.cols with
    | none =>
      unfold clean_data at h
      rw [hmi, hb] at h
      exact absurd h (by simp)
    | some bc =>
      cases he : resolve_economy t.cols with
      | none =>
        unfold clean_data at h
        rw [hmi, hb, he] at h
        exact absurd h (by simp)
      | some ec =>
        rw [clean_data_eq_of_resolved pm tn t mIdx bc ec hmi hb he] at h
        by_cases hkc : COL_MONTH ∈ final_cols t.cols bc ec ∧
            COL_BUSINESS ∈ final_cols t.cols bc ec ∧ COL_ECONOMY ∈ final_cols t.cols bc ec
        · rw [if_pos hkc] at h
          injection h with h2
          exact ⟨mIdx, bc, ec, rfl, rfl, rfl, hkc, h2.symm⟩
        · rw [if_neg hkc] at h
          exact absurd h (by simp)

/-- C3 counterexample: `clean_data` sorts by month but never deduplicates, so a
raw table with two rows for the same month is accepted and yields two records
with equal months, which is not strictly increasing. -/
theorem C3_month_uniqueness_counterexample :
    clean_data tokPm tokTn
        ⟨["Month", "B", "C", "D", "E", "F"],
          [["202004", "100", "", "", "", "90"], ["202004", "100", "", "", "", "90"]]⟩
      = Except.ok ⟨false,
          [⟨202004, some 100, some 90, none⟩, ⟨202004, some 100, some 90, none⟩]⟩ ∧
    ¬ ((([⟨202004, some 100, some 90, none⟩, ⟨202004, some 100, some 90, none⟩] :
        List CleanRow).map (fun r => r.month)).Pairwise (· < ·)) := by
  constructor
  · rfl
  · decide

/-- C3 (amended): for every raw table accepted by `clean_data`, the months of
the output are sorted ascending (non-decreasing); they need not be unique,
since duplicate-month input rows are all retained. -/
theorem C3_months_sorted (pm : String → Option Month) (tn : String → Option ℚ)
    (t : RawTable) (ct : CleanTable) (h : clean_data pm tn t = .ok ct) :
    (ct.rows.map (fun r => r.month)).Sorted (· ≤ ·) := by
  obtain ⟨mIdx, bc, ec, hmi, hb, he, hkc, hct⟩ := clean_data_ok_elim pm tn t ct h
  rw [hct]
  exact List.Pairwise.map _ (fun a b hab => hab) (List.sorted_insertionSort rowLE _)

theorem C3_months_sorted_witness :
    ((⟨false, [⟨202003, some 100, some 90, none⟩, ⟨202004, some 100, some 90, none⟩]⟩ :
        CleanTable).rows.map (fun r => r.month)).Sorted (· ≤ ·) :=
  C3_months_sorted tokPm tokTn
    ⟨["Month", "B", "C", "D", "E", "F"],
      [["202004", "100", "", "", "", "90"], ["202003", "100", "", "", "", "90"]]⟩
    ⟨false, [⟨202003, some 100, some 90, none⟩, ⟨202004, some 100, some 90, none⟩]⟩
    rfl

/-- C4: for every raw row whose month parses, the coerced record is retained by
`clean_data` iff at least one of its business and economy values is non-null
after numeric coercion; in particular a non-numeric business token (null after
coercion) does not by itself drop the row when the economy value parses. -/
theorem C4_row_retention (pm : String → Option Month) (tn : String → Option ℚ)
    (t : RawTable) (ct : CleanTable) (h : clean_data pm tn t = .ok ct)
    (mIdx : ℕ) (hmi : t.cols.indexOf? COL_MONTH = some mIdx)
    (bc ec : String) (hb : resolve_business t.cols = some bc)
    (he : resolve_economy t.cols = some ec)
    (r : List String) (hr : r ∈ t.rows) (m : Month) (hpm : pm (cellAt r mIdx) = some m) :
    (coerceRow tn (((final_cols t.cols bc ec).indexOf? COL_BUSINESS).getD 0)
        (((final_cols t.cols bc ec).indexOf? COL_ECONOMY).getD 0)
        ((final_cols t.cols bc ec).indexOf? COL_BEST_DISCOUNT) m r ∈ ct.rows ↔
      ((tn (cellAt r (((final_cols t.cols bc ec).indexOf? COL_BUSINESS).getD 0))).isSome = true ∨
        (tn (cellAt r (((final_cols t.cols bc ec).indexOf? COL_ECONOMY).getD 0))).isSome = true)) ∧
    (tn (cellAt r (((final_cols t.cols bc ec).indexOf? COL_BUSINESS).getD 0)) = none →
      ∀ q, tn (cellAt r (((final_cols t.cols bc ec).indexOf? COL_ECONOMY).getD 0)) = some q →
        coerceRow tn (((final_cols t.cols bc ec).indexOf? COL_BUSINESS).getD 0)
          (((final_cols t.cols bc ec).indexOf? COL_ECONOMY).getD 0)
          ((final_cols t.cols bc ec).indexOf? COL_BEST_DISCOUNT) m r ∈ ct.rows) := by
  obtain ⟨mIdx', bc', ec', hmi', hb', he', hkc, hct⟩ := clean_data_ok_elim pm tn t ct h
  obtain rfl : mIdx = mIdx' := Option.some.inj (hmi.symm.trans hmi')
  obtain rfl : bc = bc' := Option.some.inj (hb.symm.trans hb')
  obtain rfl : ec = ec' := Option.some.inj (he.symm.trans he')
  rw [hct]
  have hmemIff :
      coerceRow tn (((final_cols t.cols bc ec).indexOf? COL_BUSINESS).getD 0)
          (((final_cols t.cols bc ec).indexOf? COL_ECONOMY).getD 0)
          ((final_cols t.cols bc ec).indexOf? COL_BEST_DISCOUNT) m r ∈
        (List.insertionSort rowLE
          (((parseMonthRows pm mIdx t.rows).map
              (fun p => coerceRow tn
                (((final_cols t.cols bc ec).indexOf? COL_BUSINESS).getD 0)
                (((final_cols t.cols bc ec).indexOf? COL_ECONOMY).getD 0)
                ((final_cols t.cols bc ec).indexOf? COL_BEST_DISCOUNT) p.1 p.2)).filter
            (fun r => r.business.isSome || r.economy.isSome))) ↔
      ((tn (cellAt r (((final_cols t.cols bc ec).indexOf? COL_BUSINESS).getD 0))).isSome = true ∨
        (tn (cellAt r (((final_cols t.cols bc ec).indexOf? COL_ECONOMY).getD 0))).isSome = true) := by
    rw [(List.perm_insertionSort rowLE _).mem_iff, List.mem_filter]
    constructor
    · rintro ⟨-, hpred⟩
      simpa [coerceRow, Bool.or_eq_true] using hpred
    · intro hor
      refine ⟨List.mem_map.mpr ⟨(m, r), ?_, rfl⟩, ?_⟩
      · refine List.mem_filterMap.mpr ⟨r, hr, ?_⟩
        rw [hpm]
        rfl
      · simpa [coerceRow, Bool.or_eq_true] using hor
  refine ⟨hmemIff, ?_⟩
  intro hbn q heq
  exact hmemIff.mpr (Or.inr (by rw [heq]; rfl))

theorem C4_row_retention_witness :
    coerceRow tokTn
      (((final_cols ["Month", "B", "C", "D", "E", "F"] "B" "F").indexOf?
          COL_BUSINESS).getD 0)
      (((final_cols ["Month", "B", "C", "D", "E", "F"] "B" "F").indexOf?
          COL_ECONOMY).getD 0)
      ((final_cols ["Month", "B", "C", "D", "E", "F"] "B" "F").indexOf?
        COL_BEST_DISCOUNT) 202004
      ["202004", "abc", "", "", "", "90"] ∈
      (⟨false, [⟨202004, none, some 90, none⟩]⟩ : CleanTable).rows :=
  (C4_row_retention tokPm tokTn
      ⟨["Month", "B", "C", "D", "E", "F"], [["202004", "abc", "", "", "", "90"]]⟩
      ⟨false, [⟨202004, none, some 90, none⟩]⟩ rfl 0 rfl "B" "F" rfl rfl
      ["202004", "abc", "", "", "", "90"] (by simp) 202004 rfl).2 rfl 90 rfl

/-- C5: each of the business, economy and discount columns is resolved by, in
priority order, stopping at the first success: exact canonical name match, then
first case-insensitive keyword match, then positional fallback to 0-based
indices 1, 5, 7 (columns 2, 6, 8 1-indexed) when the table has at least that
many columns (else no resolution); in particular a table with unrecognized
headers but at least 8 columns resolves all three positionally. -/
theorem C5_column_resolution (cols : List String) (c : String) :
    (COL_BUSINESS ∈ cols → resolve_business cols = some COL_BUSINESS) ∧
    (COL_ECONOMY ∈ cols → resolve_economy cols = some COL_ECONOMY) ∧
    (COL_BEST_DISCOUNT ∈ cols → resolve_discount cols = some COL_BEST_DISCOUNT) ∧
    (COL_BUSINESS ∉ cols → cols.find? business_kw = some c →
      resolve_business cols = some c) ∧
    (COL_ECONOMY ∉ cols → cols.find? economy_kw = some c →
      resolve_economy cols = some c) ∧
    (COL_BEST_DISCOUNT ∉ cols → cols.find? discount_kw = some c →
      resolve_discount cols = some c) ∧
    (COL_BUSINESS ∉ cols → cols.find? business_kw = none →
      (2 ≤ cols.length → resolve_business cols = cols.get? 1) ∧
      (cols.length < 2 → resolve_business cols = none)) ∧
    (COL_ECONOMY ∉ cols → cols.find? economy_kw = none →
      (6 ≤ cols.length → resolve_economy cols = cols.get? 5) ∧
      (cols.length < 6 → resolve_economy cols = none)) ∧
    (COL_BEST_DISCOUNT ∉ cols → cols.find? discount_kw = none →
      (8 ≤ cols.length → resolve_discount cols = cols.get? 7) ∧
      (cols.length < 8 → resolve_discount cols = none)) ∧
    (COL_BUSINESS ∉ cols → cols.find? business_kw = none →
      COL_ECONOMY ∉ cols → cols.find? economy_kw = none →
      COL_BEST_DISCOUNT ∉ cols → cols.find? discount_kw = none →
      8 ≤ cols.length →
      resolve_business cols = cols.get? 1 ∧ resolve_economy cols = cols.get? 5 ∧
        resolve_discount cols = cols.get? 7) := by
  refine ⟨?_, ?_, ?_, ?_, ?_, ?_, ?_, ?_, ?_, ?_⟩
  · intro h1
    simp [resolve_business, h1]
  · intro h1
    simp [resolve_economy, h1]
  · intro h1
    simp [resolve_discount, h1]
  · intro h1 h2
    simp [resolve_business, h1, h2]
  · intro h1 h2
    simp [resolve_economy, h1, h2]
  · intro h1 h2
    simp [resolve_discount, h1, h2]
  · intro h1 h2
    constructor
    · intro hl
      simp [resolve_business, h1, h2, hl]
    · intro hl
      simp [resolve_business, h1, h2, show ¬ 2 ≤ cols.length by omega]
  · intro h1 h2
    constructor
    · intro hl
      simp [resolve_economy, h1, h2, hl]
    · intro hl
      simp [resolve_economy, h1, h2, show ¬ 6 ≤ cols.length by omega]
  · intro h1 h2
    constructor
    · intro hl
      simp [resolve_discount, h1, h2, hl]
    · intro hl
      simp [resolve_discount, h1, h2, show ¬ 8 ≤ cols.length by omega]
  · intro hb1 hb2 he1 he2 hd1 hd2 hl
    refine ⟨?_, ?_, ?_⟩
    · simp [resolve_business, hb1, hb2, show 2 ≤ cols.length by omega]
    · simp [resolve_economy, he1, he2, show 6 ≤ cols.length by omega]
    · simp [resolve_discount, hd1, hd2, hl]

theorem C5_column_resolution_witness :
    resolve_business ["A", "B", "C", "D", "E", "F", "G", "H"] = some "B" ∧
    resolve_economy ["A", "B", "C", "D", "E", "F", "G", "H"] = some "F" ∧
    resolve_discount ["A", "B", "C", "D", "E", "F", "G", "H"] = some "H" := by
  have h := (C5_column_resolution ["A", "B", "C", "D", "E", "F", "G", "H"]
      "x").2.2.2.2.2.2.2.2.2 (by decide) (by decide) (by decide) (by decide)
    (by decide) (by decide) (by decide)
  exact ⟨h.1, h.2.1, h.2.2⟩

lemma month_mem_renameCols (cols : List String) (old : String) (h : old ∈ cols) :
    COL_MONTH ∈ renameCols cols old COL_MONTH := by
  unfold renameCols
  exact List.mem_map.mpr ⟨old, h, by simp⟩

/-- C7 counterexample: for spreadsheet input with columns ["Year",
"Survey Month"], the claim picks "Survey Month" (the first name containing a
date/survey keyword), but the code renames the first column "Year" regardless,
so the two disagree. -/
theorem C7_month_column_counterexample :
    xlsx_rename_month ["Year", "Survey Month"] = ["Month", "Survey Month"] ∧
    claimed_month_rename ["Year", "Survey Month"] = ["Year", "Month"] ∧
    xlsx_rename_month ["Year", "Survey Month"] ≠
      claimed_month_rename ["Year", "Survey Month"] :=
  ⟨by decide, by decide, by decide⟩

/-- C7 (amended): for tabular-text input the month column is the first column
whose name contains a case-insensitive "month" or "survey", with positional
fallback to the first column only when no name matches; for spreadsheet input
the code always renames the first column by position, regardless of whether
another column name matches. -/
theorem C7_month_column (cols : List String) (c0 : String) (rest : List String)
    (h : cols = c0 :: rest) :
    csv_rename_month cols = claimed_month_rename cols ∧
    xlsx_rename_month cols = renameCols cols c0 COL_MONTH := by
  subst h
  constructor
  · have hm : COL_MONTH ∈ renameCols (c0 :: rest) (csv_month_col (c0 :: rest)) COL_MONTH := by
      apply month_mem_renameCols
      unfold csv_month_col
      cases hf : (c0 :: rest).find? date_kw with
      | none => simp [hf]
      | some c =>
        simp only [Option.getD_some]
        exact List.mem_of_find?_eq_some hf
    simp only [csv_rename_month, if_pos hm]
    unfold claimed_month_rename csv_month_col
    cases hf : (c0 :: rest).find? date_kw with
    | none => simp [hf]
    | some c => simp [hf]
  · simp only [xlsx_rename_month, List.headD_cons]
    split <;> rfl

theorem C7_month_column_witness :
    csv_rename_month ["Survey", "B"] = claimed_month_rename ["Survey", "B"] ∧
    xlsx_rename_month ["Survey", "B"] = renameCols ["Survey", "B"] "Survey" COL_MONTH :=
  C7_month_column ["Survey", "B"] "Survey" ["B"] rfl

/-- C8: when every header-row offset 0..4 raises a parse error, the CSV loader
does NOT surface the underlying parse error: the loop swallows every exception
and falls through to `return df` with `df` never assigned, so the run fails
with Python's UnboundLocalError instead. -/
theorem C8_parse_error_not_surfaced (reads : ℕ → Except String RawTable)
    (h : ∀ i, i < 5 → ∃ e, reads i = .error e) :
    load_csv reads = PyLoad.unboundLocal ∧ ∀ e, load_csv reads ≠ PyLoad.raised e := by
  obtain ⟨e0, h0⟩ := h 0 (by omega)
  obtain ⟨e1, h1⟩ := h 1 (by omega)
  obtain ⟨e2, h2⟩ := h 2 (by omega)
  obtain ⟨e3, h3⟩ := h 3 (by omega)
  obtain ⟨e4, h4⟩ := h 4 (by omega)
  have key : load_csv reads = PyLoad.unboundLocal := by
    have hstep : load_csv reads = load_csv_loop reads [0, 1, 2, 3, 4] none := rfl
    rw [hstep]
    simp [load_csv_loop, h0, h1, h2, h3, h4]
  refine ⟨key, ?_⟩
  intro e
  rw [key]
  simp

theorem C8_parse_error_not_surfaced_witness :
    load_csv (fun _ => Except.error "ParseError") = PyLoad.unboundLocal :=
  (C8_parse_error_not_surfaced (fun _ => Except.error "ParseError")
    (fun _ _ => ⟨"ParseError", rfl⟩)).1

lemma lookup_mem : ∀ (l : List (String × String)) (k v : String),
    List.lookup k l = some v → (k, v) ∈ l := by
  intro l
  induction l with
  | nil => intro k v h; simp [List.lookup] at h
  | cons p tail ih =>
    intro k v h
    obtain ⟨k', v'⟩ := p
    by_cases hk : k = k'
    · subst hk
      simp [List.lookup] at h
      subst h
      exact List.mem_cons_self _ _
    · have hb : (k == k') = false := beq_false_of_ne hk
      simp [List.lookup, hb] at h
      exact List.mem_cons_of_mem _ (ih k v h)

lemma lookup_isSome_iff : ∀ (l : List (String × String)) (k : String),
    (List.lookup k l).isSome = true ↔ k ∈ l.map Prod.fst := by
  intro l
  induction l with
  | nil => intro k; simp [List.lookup]
  | cons p tail ih =>
    intro k
    obtain ⟨k', v'⟩ := p
    by_cases hk : k = k'
    · subst hk
      simp [List.lookup]
    · have hb : (k == k') = false := beq_false_of_ne hk
      simp [List.lookup, hb, hk, ih k]

/-- C9: a record's official note equals the HISTORICAL_CONTEXT lookup of its
month formatted as "YYYY-MM"; it is non-null iff that string exactly equals one
of the table's keys, in which case it is that key's text (a lookup hit is
always a member of the table, so no fuzzy matching can occur), and months
without an exact key match get null. -/
theorem C9_official_note (rows : List FlagRow) (i : ℕ) (h : i < rows.length)
    (h' : i < (add_historical_notes rows).length) :
    ((add_historical_notes rows).get ⟨i, h'⟩).official_note
        = List.lookup (fmtMonth ((rows.get ⟨i, h⟩).month)) HISTORICAL_CONTEXT ∧
    (∀ s, ((add_historical_notes rows).get ⟨i, h'⟩).official_note = some s →
      (fmtMonth ((rows.get ⟨i, h⟩).month), s) ∈ HISTORICAL_CONTEXT) ∧
    (((add_historical_notes rows).get ⟨i, h'⟩).official_note.isSome = true ↔
      fmtMonth ((rows.get ⟨i, h⟩).month) ∈ HISTORICAL_CONTEXT.map Prod.fst) := by
  have hget : (add_historical_notes rows).get ⟨i, h'⟩ =
      { toFlagRow := rows.get ⟨i, h⟩
        official_note :=
          List.lookup (fmtMonth ((rows.get ⟨i, h⟩).month)) HISTORICAL_CONTEXT } := by
    simp only [List.get_eq_getElem, add_historical_notes]
    exact List.getElem_map _
  rw [hget]
  refine ⟨rfl, ?_, ?_⟩
  · intro s hs
    exact lookup_mem _ _ _ hs
  · exact lookup_isSome_iff _ _

theorem C9_official_note_witness :
    ((add_historical_notes
        [⟨⟨⟨202004, some 1, some 1, none⟩, PVal.nan, PVal.nan⟩, false⟩]).get
      ⟨0, by decide⟩).official_note
        = List.lookup (fmtMonth (([⟨⟨⟨202004, some 1, some 1, none⟩, PVal.nan, PVal.nan⟩,
          false⟩] : List FlagRow).get ⟨0, by decide⟩).month) HISTORICAL_CONTEXT :=
  (C9_official_note [⟨⟨⟨202004, some 1, some 1, none⟩, PVal.nan, PVal.nan⟩, false⟩] 0
    (by decide) (by decide)).1

/-- C10: each of `compute_mom_changes`, `detect_revenue_leakage` and
`add_historical_notes` returns a table with exactly as many rows as its input,
in the same order, with every pre-existing column of each row unchanged (the
embedded parent-row projection of the output row equals the input row), adding
only its own new column(s); each stage copies rather than mutating its input
(modelled here as pure functions, matching the df.copy() in the source). -/
theorem C10_frame_preservation (a : List CleanRow) (b : List MomRow) (c : List FlagRow)
    (i j k : ℕ) (ha : i < a.length) (hb : j < b.length) (hc : k < c.length) :
    (compute_mom_changes a).length = a.length ∧
    (detect_revenue_leakage b).length = b.length ∧
    (add_historical_notes c).length = c.length ∧
    ∃ (ha' : i < (compute_mom_changes a).length)
      (hb' : j < (detect_revenue_leakage b).length)
      (hc' : k < (add_historical_notes c).length),
      ((compute_mom_changes a).get ⟨i, ha'⟩).toCleanRow = a.get ⟨i, ha⟩ ∧
      ((detect_revenue_leakage b).get ⟨j, hb'⟩).toMomRow = b.get ⟨j, hb⟩ ∧
      ((add_historical_notes c).get ⟨k, hc'⟩).toFlagRow = c.get ⟨k, hc⟩ := by
  have l1 : (compute_mom_changes a).length = a.length := length_compute_mom_changes a
  have l2 : (detect_revenue_leakage b).length = b.length := by
    simp [detect_revenue_leakage]
  have l3 : (add_historical_notes c).length = c.length := by
    simp [add_historical_notes]
  refine ⟨l1, l2, l3, by omega, by omega, by omega, ?_, ?_, ?_⟩
  · have hbm : i < (momList (a.map (fun r => r.business))).length := by
      rw [length_momList, List.length_map]
      omega
    have hem : i < (momList (a.map (fun r => r.economy))).length := by
      rw [length_momList, List.length_map]
      omega
    rw [compute_mom_changes_get a i (by omega) ha hbm hem]
  · rw [detect_revenue_leakage_get b j (by omega) hb]
  · have hget : (add_historical_notes c).get ⟨k, by omega⟩ =
        { toFlagRow := c.get ⟨k, hc⟩
          official_note :=
            List.lookup (fmtMonth ((c.get ⟨k, hc⟩).month)) HISTORICAL_CONTEXT } := by
      simp only [List.get_eq_getElem, add_historical_notes]
      exact List.getElem_map _
    rw [hget]

theorem C10_frame_preservation_witness :
    (compute_mom_changes [⟨1, some 1, some 1, none⟩]).length =
        ([⟨1, some 1, some 1, none⟩] : List CleanRow).length ∧
    (detect_revenue_leakage [⟨⟨1, some 1, some 1, none⟩, PVal.nan, PVal.nan⟩]).length =
        ([⟨⟨1, some 1, some 1, none⟩, PVal.nan, PVal.nan⟩] : List MomRow).length ∧
    (add_historical_notes
        [⟨⟨⟨1, some 1, some 1, none⟩, PVal.nan, PVal.nan⟩, false⟩]).length =
      ([⟨⟨⟨1, some 1, some 1, none⟩, PVal.nan, PVal.nan⟩, false⟩] : List FlagRow).length ∧
    ∃ (ha' : 0 < (compute_mom_changes [⟨1, some 1, some 1, none⟩]).length)
      (hb' : 0 < (detect_revenue_leakage
        [⟨⟨1, some 1, some 1, none⟩, PVal.nan, PVal.nan⟩]).length)
      (hc' : 0 < (add_historical_notes
        [⟨⟨⟨1, some 1, some 1, none⟩, PVal.nan, PVal.nan⟩, false⟩]).length),
      ((compute_mom_changes [⟨1, some 1, some 1, none⟩]).get ⟨0, ha'⟩).toCleanRow =
          ([⟨1, some 1, some 1, none⟩] : List CleanRow).get ⟨0, by decide⟩ ∧
      ((detect_revenue_leakage
            [⟨⟨1, some 1, some 1, none⟩, PVal.nan, PVal.nan⟩]).get ⟨0, hb'⟩).toMomRow =
          ([⟨⟨1, some 1, some 1, none⟩, PVal.nan, PVal.nan⟩] : List MomRow).get
            ⟨0, by decide⟩ ∧
      ((add_historical_notes
            [⟨⟨⟨1, some 1, some 1, none⟩, PVal.nan, PVal.nan⟩, false⟩]).get
          ⟨0, hc'⟩).toFlagRow =
        ([⟨⟨⟨1, some 1, some 1, none⟩, PVal.nan, PVal.nan⟩, false⟩] : List FlagRow).get
          ⟨0, by decide⟩ :=
  C10_frame_preservation [⟨1, some 1, some 1, none⟩]
    [⟨⟨1, some 1, some 1, none⟩, PVal.nan, PVal.nan⟩]
    [⟨⟨⟨1, some 1, some 1, none⟩, PVal.nan, PVal.nan⟩, false⟩]
    0 0 0 (by decide) (by decide) (by decide)
